import Mathlib

/-!
Verification of the survey-bot backend against its natural-language
specification.  The TypeScript sources are shallowly embedded: every pure
helper becomes a Lean function over `String`/`List`, JavaScript string
semantics (lower-casing, `includes`, truthiness, `||` defaulting, array
indexing) are modelled explicitly, and the database/HTTP effects of the
controllers and webhook handler are modelled as explicit lists of write
operations produced from the request payload and oracle functions standing
for the external services.
-/

namespace SurveyBot

/-! ## JavaScript string primitives -/

/-- Model of JavaScript `String.prototype.toLowerCase` (ASCII range, which is
all the source ever matches against). -/
def jsToLower (s : String) : String := ⟨s.toList.map Char.toLower⟩

/-- Prefix test on character lists. -/
def charListStartsWith : List Char → List Char → Bool
  | [], _ => true
  | _ :: _, [] => false
  | a :: as, b :: bs => a == b && charListStartsWith as bs

/-- Infix test on character lists: does the needle start at some position? -/
def charListInfix (needle : List Char) : List Char → Bool
  | [] => charListStartsWith needle []
  | b :: bs => charListStartsWith needle (b :: bs) || charListInfix needle bs

/-- Model of JavaScript `haystack.includes(needle)`: substring containment. -/
def strIncludes (haystack needle : String) : Bool :=
  charListInfix needle.toList haystack.toList

/-! ## ElevenLabsService.detectQuestionFromText (part_003 lines 286 to 322) -/

/-- Embedding of `ElevenLabsService.detectQuestionFromText`: lower-case the
agent utterance and walk the five trigger checks in order, returning the
first question number whose condition holds, `none` otherwise. -/
def detectQuestionFromText (text : String) : Option Nat :=
  let lowerText := jsToLower text
  if strIncludes lowerText "how long have you been using" ||
     strIncludes lowerText "how long have you been" then
    some 1
  else if (strIncludes lowerText "main reason" ||
           strIncludes lowerText "reason you continue") &&
          (strIncludes lowerText "continue" ||
           strIncludes lowerText "work with us") then
    some 2
  else if strIncludes lowerText "meeting expectations" &&
          !strIncludes lowerText "how important" &&
          !strIncludes lowerText "how could we improve" then
    some 3
  else if strIncludes lowerText "safety expectations" &&
          !strIncludes lowerText "what actions show" &&
          !strIncludes lowerText "what actions don\x27t" then
    some 4
  else if strIncludes lowerText "anything else" ||
          strIncludes lowerText "anything about your business" then
    some 5
  else
    none

/-- Trigger condition of each of the five fixed questions, as a function of
substring containment in the lower-cased utterance (question 2 requires one
of its two lead triggers together with one of its two context triggers). -/
def questionTrigger (n : Nat) (lowerText : String) : Bool :=
  match n with
  | 1 => strIncludes lowerText "how long have you been using" ||
         strIncludes lowerText "how long have you been"
  | 2 => (strIncludes lowerText "main reason" ||
          strIncludes lowerText "reason you continue") &&
         (strIncludes lowerText "continue" ||
          strIncludes lowerText "work with us")
  | 3 => strIncludes lowerText "meeting expectations"
  | 4 => strIncludes lowerText "safety expectations"
  | 5 => strIncludes lowerText "anything else" ||
         strIncludes lowerText "anything about your business"
  | _ => false

/-- Follow-up phrasings that suppress a trigger match: questions 3 and 4 are
suppressed by their known follow-up phrasings, the others by nothing. -/
def questionSuppressors (n : Nat) : List String :=
  match n with
  | 3 => ["how important", "how could we improve"]
  | 4 => ["what actions show", "what actions don\x27t"]
  | _ => []

/-- A question matches the lower-cased utterance when its trigger condition
holds and none of its suppressing follow-up phrasings occur. -/
def questionMatches (n : Nat) (lowerText : String) : Bool :=
  questionTrigger n lowerText &&
    !(questionSuppressors n).any (fun p => strIncludes lowerText p)

/-- Specification-level formulation of question detection: check the five
questions in fixed priority order 1 to 5 against the lower-cased utterance
and return the first match. -/
def detectQuestionSpec (text : String) : Option Nat :=
  [1, 2, 3, 4, 5].find? (fun n => questionMatches n (jsToLower text))

/-! ## ElevenLabsService.isFollowUpQuestion (part_003 lines 325 to 337) -/

/-- The fixed follow-up phrasing list from the source. -/
def followUpPatterns : List String :=
  ["how important",
   "how could we improve",
   "what actions show",
   "what actions don\x27t",
   "what actions show safe",
   "what actions don\x27t meet"]

/-- Embedding of `ElevenLabsService.isFollowUpQuestion`. -/
def isFollowUpQuestion (text : String) : Bool :=
  let lowerText := jsToLower text
  followUpPatterns.any (fun pattern => strIncludes lowerText pattern)

/-! ## ElevenLabsService.analyzeSentiment (part_003 lines 340 to 351) -/

/-- Sentiment labels (the `response_sentiment` domain). -/
inductive Sentiment where
  | positive
  | neutral
  | negative
deriving DecidableEq, Repr

/-- The fixed 8-word positive list from the source. -/
def positiveWords : List String :=
  ["good", "great", "excellent", "satisfied", "happy", "pleased", "love", "amazing"]

/-- The fixed 8-word negative list from the source. -/
def negativeWords : List String :=
  ["bad", "terrible", "awful", "disappointed", "unhappy", "hate", "worst", "poor"]

/-- Embedding of `ElevenLabsService.analyzeSentiment`: each word list is
filtered down to the words contained in the lower-cased text and the two
filtered lengths are compared. -/
def analyzeSentiment (text : String) : Sentiment :=
  let lowerText := jsToLower text
  let positiveCount := (positiveWords.filter (fun word => strIncludes lowerText word)).length
  let negativeCount := (negativeWords.filter (fun word => strIncludes lowerText word)).length
  if positiveCount > negativeCount then .positive
  else if negativeCount > positiveCount then .negative
  else .neutral

/-- Number of (possibly overlapping) occurrences of `pat` in `s`: the number
of positions of `s` at which `pat` starts. -/
def occCount (s pat : String) : Nat :=
  ((List.range (s.toList.length + 1)).filter
    (fun i => charListStartsWith pat.toList (s.toList.drop i))).length

/-- Sentiment as the claim literally words it: total occurrence counts of
the listed words (counting repeats) are compared. -/
def claimedOccurrenceSentiment (text : String) : Sentiment :=
  let lowerText := jsToLower text
  let positiveCount := (positiveWords.map (fun word => occCount lowerText word)).sum
  let negativeCount := (negativeWords.map (fun word => occCount lowerText word)).sum
  if positiveCount > negativeCount then .positive
  else if negativeCount > positiveCount then .negative
  else .neutral

/-! ## ElevenLabsService.getQuestionText and getCurrentQuestionNumber
(part_003 lines 267 to 283) -/

/-- The five fixed survey questions (the `questions` array of
`getQuestionText`, also used verbatim by the webhook question mapping). -/
def surveyQuestions : List String :=
  ["How long have you been using Great Southern Fuels?",
   "What\x27s the main reason you continue to work with us?",
   "Has our service been meeting expectations in that area?",
   "Do our actions on site and on the road meet your safety expectations?",
   "Anything else about your business or our service you\x27d like to mention?"]

/-- JavaScript truthiness of a possibly-undefined string (`undefined` and
the empty string are falsy). -/
def optTruthy : Option String → Bool
  | some s => s ≠ ""
  | none => false

/-- JavaScript `a || b` where `a` is a possibly-undefined string and `b` a
fallback string. -/
def jsOrDefault (v : Option String) (d : String) : String :=
  if optTruthy v then v.getD d else d

/-- JavaScript `a || b` on two possibly-undefined strings. -/
def jsOrOpt (a b : Option String) : Option String :=
  if optTruthy a then a else b

/-- JavaScript array indexing with a (possibly negative or out-of-range)
integer index: out of range yields `undefined`. -/
def jsArrayGet (l : List String) (i : Int) : Option String :=
  if i < 0 then none else l.get? i.toNat

/-- Embedding of `ElevenLabsService.getQuestionText`:
`questions[questionNumber - 1] || 'Additional feedback'`. -/
def getQuestionText (questionNumber : Int) : String :=
  jsOrDefault (jsArrayGet surveyQuestions (questionNumber - 1)) "Additional feedback"

/-! ## Sentiment rows and call status values -/

/-- The `call_status` domain declared by the `SurveyCall` interface
(supabaseService.ts line 39) and the SQL CHECK constraint
(supabase-schema.sql line 24). -/
inductive CallStatus where
  | queued
  | inProgress
  | completed
  | failed
  | noAnswer
deriving DecidableEq, Repr

/-- The declared status domain, in the order the source lists it. -/
def callStatusDomain : List CallStatus :=
  [.queued, .inProgress, .completed, .failed, .noAnswer]

/-- A survey_responses row as assembled by the code (id and created_at are
assigned by the database). -/
structure ResponseRow where
  call_id : String
  question_number : Nat
  question_text : String
  response_text : String
  response_sentiment : Sentiment
deriving DecidableEq, Repr

/-- Embedding of `ElevenLabsService.getCurrentQuestionNumber`: the number of
already-stored responses for the call, plus one. -/
def getCurrentQuestionNumber (responses : List ResponseRow) : Nat :=
  responses.length + 1

/-- Modelled from the spec: the combination of `detectQuestionFromText` and
`isFollowUpQuestion` into a per-utterance classification is not present
under src/ (neither function has a caller there); the spec states that on
no trigger match the current open question number is retained if a
follow-up phrase is detected, else no question is attributed. -/
def classifyUtterance (currentOpen : Option Nat) (text : String) : Option Nat :=
  match detectQuestionFromText text with
  | some n => some n
  | none => if isFollowUpQuestion text then currentOpen else none

/-! ## Database write operations

The controllers and the webhook handler are modelled as functions from the
request payload (and oracle functions standing for the external services)
to the list of database writes they perform. -/

/-- A survey_calls row as assembled by the code before insertion. -/
structure CallWrite where
  customer_first_name : String
  customer_phone : String
  call_sid : String
  customer_id : Option String
  campaign_id : Option String
  call_status : CallStatus
deriving DecidableEq, Repr

/-- One turn of a conversation transcript as delivered in the post-call
webhook payload (role, text, optional relative timestamp). -/
structure TranscriptTurn where
  role : String
  message : String
  time_in_call_secs : Option Nat
deriving DecidableEq, Repr

/-- Database writes the backend can perform.  `insertTranscript` is the
write the `call_transcripts` table (part_000 lines 18 to 27) exists to
receive. -/
inductive DbWrite where
  | insertCall : CallWrite → DbWrite
  | insertResponse : ResponseRow → DbWrite
  | updateCall : String → CallStatus → Option Nat → DbWrite
  | insertTranscript : String → List TranscriptTurn → DbWrite
deriving DecidableEq, Repr

/-- Is this write an insertion into the transcript store? -/
def DbWrite.isTranscriptWrite : DbWrite → Bool
  | .insertTranscript _ _ => true
  | _ => false

/-- The status value a write stores, if it stores one. -/
def writtenStatusOf : DbWrite → Option CallStatus
  | .insertCall w => some w.call_status
  | .updateCall _ s _ => some s
  | _ => none

/-- The three status values the code ever passes to a database write. -/
def allowedWrittenStatus : CallStatus → Bool
  | .queued => true
  | .inProgress => true
  | .completed => true
  | _ => false

/-! ## Webhook post_call_transcription handling
(elevenlabsWebhook.ts lines 40 to 95) -/

/-- Embedding of the webhook question mapping (elevenlabsWebhook.ts lines
56 to 62): lower-cased key to question number and fixed question text. -/
def questionMapping (key : String) : Option (Nat × String) :=
  if key = "q1" then some (1, "How long have you been using Great Southern Fuels?")
  else if key = "q2" then some (2, "What\x27s the main reason you continue to work with us?")
  else if key = "q3" then some (3, "Has our service been meeting expectations in that area?")
  else if key = "q4" then some (4, "Do our actions on site and on the road meet your safety expectations?")
  else if key = "q5" then some (5, "Anything else about your business or our service you\x27d like to mention?")
  else none

/-- Embedding of the data-collection loop (elevenlabsWebhook.ts lines 68 to
82): one response row per entry whose lower-cased key is mapped and whose
value is truthy. -/
def processDataCollection (callId : String) (dataCollection : List (String × String)) :
    List ResponseRow :=
  dataCollection.filterMap (fun entry =>
    match questionMapping (jsToLower entry.1) with
    | some question =>
      if entry.2 ≠ "" then
        some { call_id := callId, question_number := question.1,
               question_text := question.2, response_text := entry.2,
               response_sentiment := analyzeSentiment entry.2 }
      else none
    | none => none)

/-- The q1..q5 keys in order, for the specification-level reading. -/
def questionKeys : List String := ["q1", "q2", "q3", "q4", "q5"]

/-- The association the claim describes: key q(i) maps to question number i
with the ith fixed survey question text. -/
def claimKeyTable : List (String × (Nat × String)) :=
  [("q1", (1, surveyQuestions.getD 0 "")),
   ("q2", (2, surveyQuestions.getD 1 "")),
   ("q3", (3, surveyQuestions.getD 2 "")),
   ("q4", (4, surveyQuestions.getD 3 "")),
   ("q5", (5, surveyQuestions.getD 4 ""))]

/-- Specification-level reading of one data-collection entry: a row exists
exactly when the lower-cased key is one of q1..q5 and the value is
non-empty; the row carries the mapped number, the fixed question text, the
value, and the sentiment of the value. -/
def claimResponseRow (callId : String) (entry : String × String) : Option ResponseRow :=
  match claimKeyTable.lookup (jsToLower entry.1) with
  | some question =>
    if entry.2 ≠ "" then
      some { call_id := callId, question_number := question.1,
             question_text := question.2, response_text := entry.2,
             response_sentiment := analyzeSentiment entry.2 }
    else none
  | none => none

/-- The post_call_transcription payload fields the handler reads. -/
structure PostCallPayload where
  conversation_id : Option String
  transcript : List TranscriptTurn
  data_collection : List (String × String)
  call_duration_secs : Option Nat
deriving DecidableEq, Repr

/-- Embedding of the post_call_transcription branch of the webhook handler:
`lookupCallId` stands for `supabaseService.getCallBySid` (returning the id
of the matching call row).  For a known call the handler inserts the
data-collection response rows and then updates the call status to
completed; the extracted transcript is read into a local variable at line
43 and is used by no write. -/
def postCallWrites (lookupCallId : String → Option String) (payload : PostCallPayload) :
    List DbWrite :=
  match payload.conversation_id with
  | none => []
  | some conversationId =>
    match lookupCallId conversationId with
    | none => []
    | some callId =>
      (processDataCollection callId payload.data_collection).map .insertResponse
        ++ [.updateCall conversationId .completed payload.call_duration_secs]

/-- Status values passed to `updateCallStatus` by the remaining webhook
event branches (elevenlabsWebhook.ts lines 97 to 135), by event type. -/
def webhookStatusUpdates (eventType : String) : List CallStatus :=
  (if eventType = "conversation_started" then [CallStatus.inProgress] else [])
    ++ (if eventType = "conversation_ended" then [CallStatus.completed] else [])

/-- Status values passed to `updateCallStatus` by
`ElevenLabsService.processConversationEvent` (part_003 lines 210 to 242),
by event type. -/
def processConversationEventStatusUpdates (eventType : String) : List CallStatus :=
  if eventType = "conversation_started" then [CallStatus.inProgress]
  else if eventType = "conversation_ended" then [CallStatus.completed]
  else []

/-! ## CallController.startBatchCalls (callController.ts lines 122 to 204) -/

/-- A customers row as the batch loop reads it. -/
structure CustomerRec where
  id : String
  first_name : String
  phone_number : String
  campaign_id : Option String
deriving DecidableEq, Repr

/-- Oracles for the external services the batch loop calls: the customer
lookup, the vendor call initiation (returning a conversation id or an
error), and the call-row insertion (returning the assigned row id or an
error). -/
structure BatchEnv where
  getCustomerById : String → Option CustomerRec
  initiateCall : String → String → Except String String
  createCall : CallWrite → Except String String

/-- One entry of the `results` array of the batch response. -/
structure BatchItemResult where
  customerId : String
  callId : Option String := none
  callSid : Option String := none
  status : Option String := none
  error : Option String := none
deriving DecidableEq, Repr

/-- Embedding of the per-customer body of the batch loop (callController.ts
lines 139 to 175): the result entry plus the database writes performed. -/
def processCustomer (env : BatchEnv) (customerId : String) :
    BatchItemResult × List DbWrite :=
  match env.getCustomerById customerId with
  | none => ({ customerId := customerId,
               error := some ("Customer " ++ customerId ++ " not found") }, [])
  | some customer =>
    match env.initiateCall customer.phone_number customer.first_name with
    | .error e => ({ customerId := customerId, error := some e }, [])
    | .ok conversationId =>
      let write : CallWrite :=
        { customer_first_name := customer.first_name,
          customer_phone := customer.phone_number,
          call_sid := conversationId,
          customer_id := some customerId,
          campaign_id := customer.campaign_id,
          call_status := .queued }
      match env.createCall write with
      | .error e => ({ customerId := customerId, error := some e }, [])
      | .ok callId =>
        ({ customerId := customerId, callId := some callId,
           callSid := some conversationId, status := some "queued" }, [.insertCall write])

/-- The consecutive slices `customerIds.slice(i, i + maxConcurrent)` taken
by the batch loop. -/
def chunkList (mc : Nat) : List String → List (List String)
  | [] => []
  | id :: ids =>
    if _h : mc = 0 then []
    else (id :: ids).take mc :: chunkList mc ((id :: ids).drop mc)
termination_by ids => ids.length + 1
decreasing_by
  simp only [List.length_drop, List.length_cons]
  omega

/-- Events of the batch loop, in order: each group of calls is issued
concurrently (one `callBatch` event per `Promise.all`), and the loop sleeps
1000 ms after a group exactly when input remains. -/
inductive BatchEvent where
  | callBatch : List String → BatchEvent
  | sleepMs : Nat → BatchEvent
deriving DecidableEq, Repr

/-- Embedding of the control flow of the batch loop: the ordered trace of
concurrent call groups and pauses. -/
def batchSchedule : List String → Nat → List BatchEvent
  | [], _ => []
  | id :: ids, mc =>
    if _h : mc = 0 then []
    else if mc < (id :: ids).length then
      .callBatch ((id :: ids).take mc) :: .sleepMs 1000 ::
        batchSchedule ((id :: ids).drop mc) mc
    else
      [.callBatch ((id :: ids).take mc)]
termination_by ids _ => ids.length + 1
decreasing_by
  simp only [List.length_drop, List.length_cons]
  omega

/-- The `results` array accumulated by the batch loop: the per-chunk result
lists, concatenated in order. -/
def batchResults (env : BatchEnv) (ids : List String) (mc : Nat) :
    List BatchItemResult :=
  ((chunkList mc ids).map
    (fun batch => batch.map (fun customerId => (processCustomer env customerId).1))).flatten

/-- The database writes performed by the batch loop, in order. -/
def batchWrites (env : BatchEnv) (ids : List String) (mc : Nat) : List DbWrite :=
  ((chunkList mc ids).map
    (fun batch => (batch.map (fun customerId => (processCustomer env customerId).2)).flatten)).flatten

/-- The call row inserted by `CallController.testCall` (callController.ts
lines 37 to 42). -/
def testCallWrite (firstName phoneNumber conversationId : String) : CallWrite :=
  { customer_first_name := firstName,
    customer_phone := phoneNumber,
    call_sid := conversationId,
    customer_id := none,
    campaign_id := none,
    call_status := .queued }

/-- The call row inserted by `CallController.startCall` (callController.ts
lines 94 to 101). -/
def startCallWrite (firstName phoneNumber conversationId customerId : String)
    (campaignId : Option String) : CallWrite :=
  { customer_first_name := firstName,
    customer_phone := phoneNumber,
    call_sid := conversationId,
    customer_id := some customerId,
    campaign_id := campaignId,
    call_status := .queued }

/-! ## CustomerController CSV upload (part_001) -/

/-- JavaScript `String.prototype.trim` (ASCII whitespace model). -/
def jsTrim (s : String) : String :=
  ⟨((s.toList.dropWhile Char.isWhitespace).reverse.dropWhile Char.isWhitespace).reverse⟩

/-- Split on the newline character, as `csvContent.split('\n')` does. -/
def splitOnNewlineGo : List Char → List Char → List String
  | [], current => [⟨current.reverse⟩]
  | c :: rest, current =>
    if c = '\n' then ⟨current.reverse⟩ :: splitOnNewlineGo rest []
    else splitOnNewlineGo rest (c :: current)

/-- JavaScript `s.split('\n')`. -/
def jsSplitNewline (s : String) : List String := splitOnNewlineGo s.toList []

/-- Model of `Array.prototype.join(sep)` on a string array. -/
def jsJoin (sep : String) : List String → String
  | [] => ""
  | [x] => x
  | x :: y :: rest => x ++ sep ++ jsJoin sep (y :: rest)

/-- Embedding of `CustomerController.parseCSVLine` (part_001 lines 156 to
176): split on commas outside double quotes, dropping the quote characters
themselves. -/
def parseCSVLineGo : List Char → Bool → List Char → List String
  | [], _, current => [⟨current.reverse⟩]
  | c :: rest, inQuotes, current =>
    if c = '"' then parseCSVLineGo rest (!inQuotes) current
    else if c = ',' && !inQuotes then
      ⟨current.reverse⟩ :: parseCSVLineGo rest inQuotes []
    else parseCSVLineGo rest inQuotes (c :: current)

/-- Embedding of `CustomerController.parseCSVLine`. -/
def parseCSVLine (line : String) : List String := parseCSVLineGo line.toList false []

/-- The non-blank lines of the CSV content. -/
def csvLines (csvContent : String) : List String :=
  (jsSplitNewline csvContent).filter (fun line => jsTrim line ≠ "")

/-- The lower-cased, trimmed header names parsed from the first non-blank
line. -/
def csvHeaders (csvContent : String) : List String :=
  match csvLines csvContent with
  | [] => []
  | line0 :: _ => (parseCSVLine line0).map (fun h => jsToLower (jsTrim h))

/-- Embedding of `CustomerController.parseCSV` (part_001 lines 130 to 153):
each remaining line with the right column count becomes an object mapping
each header to the trimmed value (modelled as the header/value pair list). -/
def parseCSV (csvContent : String) : List (List (String × String)) :=
  let lines := csvLines csvContent
  if lines.length < 2 then []
  else
    let headers := csvHeaders csvContent
    (lines.drop 1).filterMap (fun line =>
      let values := parseCSVLine line
      if values.length ≠ headers.length then none
      else some (headers.zip (values.map jsTrim)))

/-- JavaScript property read on an object built by assigning the headers in
order: the last assignment to a key wins; a key never assigned reads as
`undefined`. -/
def objGet (row : List (String × String)) (key : String) : Option String :=
  ((row.filter (fun kv => kv.1 == key)).getLast?).map (fun kv => kv.2)

/-- Model of the whitespace strip `phoneNumber.replace(/\s/g, '')`. -/
def stripWhitespace (s : String) : String :=
  ⟨s.toList.filter (fun c => !c.isWhitespace)⟩

/-- Model of the phone regex test
`/^[\+]?[1-9][\d]{0,15}$/.test(s)`: an optional plus sign, a nonzero
digit, then up to fifteen digits. -/
def phoneRegexTest (s : String) : Bool :=
  match s.toList with
  | [] => false
  | c :: rest =>
    match (if c = '+' then rest else c :: rest) with
    | [] => false
    | d :: ds => d.isDigit && d != '0' && ds.length ≤ 15 && ds.all Char.isDigit

/-- The validation error messages pushed for one parsed row
(part_001 lines 179 to 198). -/
def customerErrors (row : List (String × String)) : List String :=
  (if !optTruthy (objGet row "first_name") || !optTruthy (objGet row "firstname") then
     ["First name is required"]
   else [])
    ++ (if !optTruthy (objGet row "phone") || !optTruthy (objGet row "phone_number") then
          ["Phone number is required"]
        else [])
    ++ (if optTruthy (jsOrOpt (objGet row "phone") (objGet row "phone_number")) &&
           !phoneRegexTest (stripWhitespace
             ((jsOrOpt (objGet row "phone") (objGet row "phone_number")).getD "")) then
          ["Invalid phone number format"]
        else [])

/-- The record `validateCustomers` builds for one parsed row (part_001
lines 200 to 207). -/
structure ValidatedCustomer where
  first_name : Option String
  last_name : Option String
  phone_number : Option String
  company_name : Option String
  campaign_id : Option String
  error : Option String
deriving DecidableEq, Repr

/-- Embedding of the per-row body of `CustomerController.validateCustomers`. -/
def validateCustomer (row : List (String × String)) : ValidatedCustomer :=
  let errors := customerErrors row
  { first_name := jsOrOpt (objGet row "first_name") (objGet row "firstname"),
    last_name := jsOrOpt (objGet row "last_name") (objGet row "lastname"),
    phone_number := jsOrOpt (objGet row "phone") (objGet row "phone_number"),
    company_name := jsOrOpt (objGet row "company") (objGet row "company_name"),
    campaign_id := objGet row "campaign_id",
    error := if errors.length > 0 then some (jsJoin ", " errors) else none }

/-- Embedding of `CustomerController.validateCustomers`. -/
def validateCustomers (rows : List (List (String × String))) : List ValidatedCustomer :=
  rows.map validateCustomer

/-- The upload response as far as the validation phase decides it: either a
400 with the given error message, or the insertion phase over the valid
customers. -/
inductive UploadOutcome where
  | badRequest : String → UploadOutcome
  | insertPhase : List ValidatedCustomer → UploadOutcome
deriving DecidableEq, Repr

/-- Whether the outcome is a 400 response. -/
def UploadOutcome.isBadRequest : UploadOutcome → Bool
  | .badRequest _ => true
  | _ => false

/-- Embedding of the decision structure of
`CustomerController.uploadCustomers` (part_001 lines 6 to 33): parse, then
400 when nothing parsed, then validate, then 400 when no row is error-free,
else proceed to insertion. -/
def uploadCustomersOutcome (csvContent : String) : UploadOutcome :=
  let customers := parseCSV csvContent
  if customers.length = 0 then .badRequest "No valid customers found in CSV"
  else
    let validatedCustomers := validateCustomers customers
    let validCustomers := validatedCustomers.filter (fun c => !optTruthy c.error)
    if validCustomers.length = 0 then .badRequest "No valid customers found"
    else .insertPhase validCustomers

/-! ## Concrete instances used by witness theorems -/

/-- A concrete oracle environment used for witness evaluation. -/
def trivialBatchEnv : BatchEnv :=
  { getCustomerById := fun _ => none,
    initiateCall := fun _ _ => .error "unavailable",
    createCall := fun _ => .error "unavailable" }

/-- A concrete post-call payload used for witness evaluation. -/
def c6Payload : PostCallPayload :=
  { conversation_id := some "conv_1",
    transcript := [],
    data_collection := [("Q1", "Six years, all good"), ("note", "ignored"), ("q2", "")],
    call_duration_secs := some 90 }

/-- A concrete call lookup used for witness evaluation. -/
def c6Lookup : String → Option String :=
  fun sid => if sid = "conv_1" then some "call_9" else none

/-- A concrete post-call payload carrying a non-empty transcript. -/
def c7Payload : PostCallPayload :=
  { conversation_id := some "conv_123",
    transcript :=
      [{ role := "agent", message := "Hi John, Sophie here.", time_in_call_secs := some 0 },
       { role := "user", message := "About five years.", time_in_call_secs := some 4 }],
    data_collection := [("q1", "About five years")],
    call_duration_secs := some 120 }

/-- The call lookup that knows the call of `c7Payload`. -/
def c7Lookup : String → Option String :=
  fun sid => if sid = "conv_123" then some "call_7" else none

end SurveyBot

namespace SurveyBot

/-- Helper: the detector if-chain equals the priority-ordered first match. -/
theorem detectQuestionFromText_eq_spec (t : String) :
    detectQuestionFromText t = detectQuestionSpec t := by
  unfold detectQuestionFromText detectQuestionSpec questionMatches questionTrigger questionSuppressors
  simp only [List.find?, List.any_cons, List.any_nil, Bool.or_false, Bool.not_or,
    Bool.and_assoc, Bool.not_false, Bool.and_true]
  cases h1 : strIncludes (jsToLower t) "how long have you been using" ||
      strIncludes (jsToLower t) "how long have you been" <;>
    cases h2 : (strIncludes (jsToLower t) "main reason" ||
          strIncludes (jsToLower t) "reason you continue") &&
        (strIncludes (jsToLower t) "continue" ||
          strIncludes (jsToLower t) "work with us") <;>
    cases h3 : strIncludes (jsToLower t) "meeting expectations" &&
        (!strIncludes (jsToLower t) "how important" &&
          !strIncludes (jsToLower t) "how could we improve") <;>
    cases h4 : strIncludes (jsToLower t) "safety expectations" &&
        (!strIncludes (jsToLower t) "what actions show" &&
          !strIncludes (jsToLower t) "what actions don\x27t") <;>
    cases h5 : strIncludes (jsToLower t) "anything else" ||
        strIncludes (jsToLower t) "anything about your business" <;>
    simp [h1, h2, h3, h4, h5]

/-- Claim C1: for every agent utterance, question detection lower-cases the
text and checks each of the five fixed questions\x27 substring triggers in
fixed priority order 1 to 5, returning the first question whose triggers
match; a question 3 trigger match is suppressed when the utterance also
contains "how important" or "how could we improve", and a question 4 match
when it also contains "what actions show" or "what actions don\x27t"
(`detectQuestionSpec` is exactly this priority-ordered suppressed match). -/
theorem claim_C1_question_detection (t : String) :
    detectQuestionFromText t = detectQuestionSpec t :=
  detectQuestionFromText_eq_spec t

/-- Claim C2 counterexample: on "good good bad" the occurrence counts are
2 positive and 1 negative, so the claim as stated demands a positive
label, but `analyzeSentiment` counts each listed word at most once (1
positive word present, 1 negative) and returns neutral. -/
theorem claim_C2_sentiment_counterexample :
    analyzeSentiment "good good bad" = Sentiment.neutral ∧
    claimedOccurrenceSentiment "good good bad" = Sentiment.positive ∧
    (positiveWords.map (fun w => occCount (jsToLower "good good bad") w)).sum = 2 ∧
    (negativeWords.map (fun w => occCount (jsToLower "good good bad") w)).sum = 1 := by
  decide

/-- Claim C2 (amended): sentiment analysis counts, for each of the fixed
8-word lists, the number of listed words that occur as substrings of the
lower-cased text (each word counted at most once however often it occurs),
returns positive when the positive count is strictly greater, negative
when the negative count is strictly greater, and neutral on ties. -/
theorem claim_C2_sentiment_presence_counts (t : String) :
    analyzeSentiment t =
      (let p := positiveWords.countP (fun w => strIncludes (jsToLower t) w)
       let n := negativeWords.countP (fun w => strIncludes (jsToLower t) w)
       if n < p then Sentiment.positive
       else if p < n then Sentiment.negative
       else Sentiment.neutral) := by
  simp [analyzeSentiment, List.countP_eq_length_filter]

/-- Claim C3: follow-up detection returns true exactly when the
lower-cased utterance contains at least one of the six fixed substrings;
matching against the lower-cased text makes the check case-insensitive. -/
theorem claim_C3_follow_up_detection (t : String) :
    isFollowUpQuestion t =
      (strIncludes (jsToLower t) "how important" ||
       strIncludes (jsToLower t) "how could we improve" ||
       strIncludes (jsToLower t) "what actions show" ||
       strIncludes (jsToLower t) "what actions don\x27t" ||
       strIncludes (jsToLower t) "what actions show safe" ||
       strIncludes (jsToLower t) "what actions don\x27t meet") := by
  simp [isFollowUpQuestion, followUpPatterns, Bool.or_assoc]

/-- Claim C4: when no question trigger matches the utterance the detector
yields none (unclassified), and in that case the classifier retains the
currently open question number if a follow-up phrase is detected and
attributes no question otherwise (the combining classifier is modelled
from the spec, see `classifyUtterance`). -/
theorem claim_C4_unclassified (t : String) (currentOpen : Option Nat)
    (h : ([1, 2, 3, 4, 5].all (fun n => !questionMatches n (jsToLower t))) = true) :
    detectQuestionFromText t = none ∧
    classifyUtterance currentOpen t =
      (if isFollowUpQuestion t then currentOpen else none) := by
  have hd : detectQuestionFromText t = none := by
    rw [detectQuestionFromText_eq_spec]
    unfold detectQuestionSpec
    apply List.find?_eq_none.mpr
    intro n hn
    have := (List.all_eq_true.mp h) n hn
    simpa using this
  refine ⟨hd, ?_⟩
  unfold classifyUtterance
  rw [hd]

/-- Witness for claim C4 at a concrete follow-up utterance with question 3
open. -/
theorem claim_C4_witness :
    (([1, 2, 3, 4, 5].all
        (fun n => !questionMatches n (jsToLower "How important is that to your business?"))) = true) ∧
    (detectQuestionFromText "How important is that to your business?" = none ∧
     classifyUtterance (some 3) "How important is that to your business?" =
       (if isFollowUpQuestion "How important is that to your business?" then some 3 else none)) :=
  ⟨by decide, claim_C4_unclassified _ _ (by decide)⟩

/-- Claim C10: `getQuestionText` is total over all integer question
numbers: for 1 to 5 it returns the corresponding fixed survey question and
for every other integer (including 0, negatives and numbers of 6 and
above) it returns "Additional feedback"; `getCurrentQuestionNumber`
returns the stored-response count plus one, which is unbounded. -/
theorem claim_C10_question_text_total (n : Int) (responses : List ResponseRow) :
    getQuestionText n =
      (if 1 ≤ n ∧ n ≤ 5 then surveyQuestions.getD (n - 1).toNat "Additional feedback"
       else "Additional feedback") ∧
    getCurrentQuestionNumber responses = responses.length + 1 := by
  constructor
  · by_cases h : 1 ≤ n ∧ n ≤ 5
    · rw [if_pos h]
      obtain ⟨h1, h2⟩ := h
      interval_cases n <;> decide
    · rw [if_neg h]
      rcases lt_or_ge n 1 with hlt | hge
      · unfold getQuestionText jsArrayGet
        rw [if_pos (by omega : n - 1 < 0)]
        rfl
      · have h6 : 5 < n := by omega
        unfold getQuestionText jsArrayGet
        rw [if_neg (by omega : ¬ n - 1 < 0)]
        have hnone : surveyQuestions.get? (n - 1).toNat = none := by
          apply List.get?_eq_none.mpr
          have h5 : surveyQuestions.length = 5 := rfl
          rw [h5]
          omega
        rw [hnone]
        rfl
  · rfl

/-! ### Batch-call lemmas -/

/-- The batch slices concatenate back to the input list. -/
theorem chunkList_flatten (mc : Nat) (hmc : 0 < mc) :
    (ids : List String) → (chunkList mc ids).flatten = ids
  | [] => by simp [chunkList]
  | id :: ids => by
    rw [chunkList, dif_neg (Nat.pos_iff_ne_zero.mp hmc)]
    rw [List.flatten_cons, chunkList_flatten mc hmc ((id :: ids).drop mc)]
    exact List.take_append_drop mc (id :: ids)
termination_by ids => ids.length
decreasing_by simp [List.length_drop]; omega

/-- Every batch slice is non-empty and no longer than the group size. -/
theorem chunkList_chunk_size (mc : Nat) (hmc : 0 < mc) :
    (ids : List String) → ∀ c ∈ chunkList mc ids, c ≠ [] ∧ c.length ≤ mc
  | [] => by simp [chunkList]
  | id :: ids => by
    intro c hc
    rw [chunkList, dif_neg (Nat.pos_iff_ne_zero.mp hmc)] at hc
    rcases List.mem_cons.mp hc with h | h
    · subst h
      refine ⟨?_, List.length_take_le mc _⟩
      obtain ⟨k, rfl⟩ := Nat.exists_eq_succ_of_ne_zero (Nat.pos_iff_ne_zero.mp hmc)
      simp [List.take_succ_cons]
    · exact chunkList_chunk_size mc hmc ((id :: ids).drop mc) c h
termination_by ids => ids.length
decreasing_by simp [List.length_drop]; omega

/-- There are no slices exactly for the empty input. -/
theorem chunkList_eq_nil_iff (mc : Nat) (hmc : 0 < mc) (ids : List String) :
    chunkList mc ids = [] ↔ ids = [] := by
  cases ids with
  | nil => simp [chunkList]
  | cons id ids =>
    rw [chunkList, dif_neg (Nat.pos_iff_ne_zero.mp hmc)]
    simp

/-- Every slice except possibly the last has exactly the group size. -/
theorem chunkList_full_chunks (mc : Nat) (hmc : 0 < mc) :
    (ids : List String) → ∀ c ∈ (chunkList mc ids).dropLast, c.length = mc
  | [] => by simp [chunkList]
  | id :: ids => by
    intro c hc
    rw [chunkList, dif_neg (Nat.pos_iff_ne_zero.mp hmc)] at hc
    by_cases hrest : chunkList mc ((id :: ids).drop mc) = []
    · rw [hrest] at hc
      simp at hc
    · rw [List.dropLast_cons_of_ne_nil hrest] at hc
      rcases List.mem_cons.mp hc with h | h
      · subst h
        have hd : (id :: ids).drop mc ≠ [] := by
          intro hnil
          exact hrest (by rw [hnil]; simp [chunkList])
        have hlen : mc < (id :: ids).length := by
          by_contra hle
          exact hd (List.drop_eq_nil_iff.mpr (by omega))
        rw [List.length_take]
        omega
      · exact chunkList_full_chunks mc hmc ((id :: ids).drop mc) c h
termination_by ids => ids.length
decreasing_by simp [List.length_drop]; omega

/-- The loop trace is the batches with a 1000 ms sleep between
consecutive batches. -/
theorem batchSchedule_eq_intersperse (mc : Nat) (hmc : 0 < mc) :
    (ids : List String) →
      batchSchedule ids mc =
        List.intersperse (.sleepMs 1000) ((chunkList mc ids).map .callBatch)
  | [] => by simp [batchSchedule, chunkList]
  | id :: ids => by
    rw [batchSchedule, chunkList, dif_neg (Nat.pos_iff_ne_zero.mp hmc),
      dif_neg (Nat.pos_iff_ne_zero.mp hmc)]
    by_cases hlt : mc < (id :: ids).length
    · rw [if_pos hlt]
      have hd : (id :: ids).drop mc ≠ [] := by
        intro hnil
        have := List.drop_eq_nil_iff.mp hnil
        omega
      have hrest : chunkList mc ((id :: ids).drop mc) ≠ [] := by
        intro hnil
        exact hd ((chunkList_eq_nil_iff mc hmc _).mp hnil)
      obtain ⟨c, cs, hcs⟩ : ∃ c cs, chunkList mc ((id :: ids).drop mc) = c :: cs := by
        rcases hr : chunkList mc ((id :: ids).drop mc) with _ | ⟨c, cs⟩
        · exact absurd hr hrest
        · exact ⟨c, cs, rfl⟩
      rw [batchSchedule_eq_intersperse mc hmc ((id :: ids).drop mc), hcs]
      simp [List.intersperse]
    · rw [if_neg hlt]
      have hd : (id :: ids).drop mc = [] :=
        List.drop_eq_nil_iff.mpr (by omega)
      rw [hd]
      simp [chunkList, List.intersperse]
termination_by ids => ids.length
decreasing_by simp [List.length_drop]; omega

/-- Each batch result entry carries the customer id it was made for. -/
theorem processCustomer_customerId (env : BatchEnv) (cid : String) :
    (processCustomer env cid).1.customerId = cid := by
  unfold processCustomer
  rcases env.getCustomerById cid with _ | customer
  · rfl
  · dsimp only
    rcases env.initiateCall customer.phone_number customer.first_name with e | convId
    · rfl
    · dsimp only
      rcases env.createCall
          { customer_first_name := customer.first_name,
            customer_phone := customer.phone_number,
            call_sid := convId,
            customer_id := some cid,
            campaign_id := customer.campaign_id,
            call_status := .queued } with e | callId <;> rfl

/-- The accumulated batch results are the per-customer results in input
order. -/
theorem batchResults_eq_map (env : BatchEnv) (mc : Nat) (hmc : 0 < mc) (ids : List String) :
    batchResults env ids mc = ids.map (fun customerId => (processCustomer env customerId).1) := by
  unfold batchResults
  rw [← List.map_flatten, chunkList_flatten mc hmc ids]

/-- Claim C5: for a non-empty customer id list the batch loop partitions
the list into consecutive groups of size maxConcurrent (every group
non-empty and of full size except possibly the last), issues each group as
one concurrent batch with a 1000 ms pause between consecutive groups, and
produces exactly one result entry per input customer id, in order. -/
theorem claim_C5_batch_calls (env : BatchEnv) (ids : List String) (mc : Nat)
    (hmc : 0 < mc) (hne : ids ≠ []) :
    (chunkList mc ids).flatten = ids ∧
    (∀ c ∈ chunkList mc ids, c ≠ [] ∧ c.length ≤ mc) ∧
    (∀ c ∈ (chunkList mc ids).dropLast, c.length = mc) ∧
    chunkList mc ids ≠ [] ∧
    batchSchedule ids mc =
      List.intersperse (.sleepMs 1000) ((chunkList mc ids).map .callBatch) ∧
    batchResults env ids mc =
      ids.map (fun customerId => (processCustomer env customerId).1) ∧
    (batchResults env ids mc).map (fun r => r.customerId) = ids := by
  refine ⟨chunkList_flatten mc hmc ids, chunkList_chunk_size mc hmc ids,
    chunkList_full_chunks mc hmc ids,
    fun h => hne ((chunkList_eq_nil_iff mc hmc ids).mp h),
    batchSchedule_eq_intersperse mc hmc ids,
    batchResults_eq_map env mc hmc ids, ?_⟩
  rw [batchResults_eq_map env mc hmc ids, List.map_map]
  have hcomp : ((fun r : BatchItemResult => r.customerId) ∘
      fun customerId => (processCustomer env customerId).1) = id := by
    funext cid
    exact processCustomer_customerId env cid
  rw [hcomp, List.map_id]

/-- Witness for claim C5 on a three-element id list with group size 2. -/
theorem claim_C5_witness :
    0 < 2 ∧ (["a", "b", "c"] : List String) ≠ [] ∧
    ((chunkList 2 ["a", "b", "c"]).flatten = ["a", "b", "c"] ∧
     (∀ c ∈ chunkList 2 ["a", "b", "c"], c ≠ [] ∧ c.length ≤ 2) ∧
     (∀ c ∈ (chunkList 2 ["a", "b", "c"]).dropLast, c.length = 2) ∧
     chunkList 2 ["a", "b", "c"] ≠ [] ∧
     batchSchedule ["a", "b", "c"] 2 =
       List.intersperse (.sleepMs 1000) ((chunkList 2 ["a", "b", "c"]).map .callBatch) ∧
     batchResults trivialBatchEnv ["a", "b", "c"] 2 =
       ["a", "b", "c"].map (fun customerId => (processCustomer trivialBatchEnv customerId).1) ∧
     (batchResults trivialBatchEnv ["a", "b", "c"] 2).map (fun r => r.customerId) =
       ["a", "b", "c"]) :=
  ⟨by decide, by decide,
   claim_C5_batch_calls trivialBatchEnv ["a", "b", "c"] 2 (by decide) (by decide)⟩

/-! ### Data-collection lemmas -/

/-- The webhook question mapping agrees with the q1..q5 lookup table. -/
theorem questionMapping_eq_lookup (k : String) :
    questionMapping k = claimKeyTable.lookup k := by
  by_cases h1 : k = "q1"
  · subst h1; decide
  · by_cases h2 : k = "q2"
    · subst h2; decide
    · by_cases h3 : k = "q3"
      · subst h3; decide
      · by_cases h4 : k = "q4"
        · subst h4; decide
        · by_cases h5 : k = "q5"
          · subst h5; decide
          · have e1 : (k == "q1") = false := beq_eq_false_iff_ne.mpr h1
            have e2 : (k == "q2") = false := beq_eq_false_iff_ne.mpr h2
            have e3 : (k == "q3") = false := beq_eq_false_iff_ne.mpr h3
            have e4 : (k == "q4") = false := beq_eq_false_iff_ne.mpr h4
            have e5 : (k == "q5") = false := beq_eq_false_iff_ne.mpr h5
            simp [questionMapping, claimKeyTable, List.lookup,
              h1, h2, h3, h4, h5, e1, e2, e3, e4, e5]

/-- The data-collection loop keeps exactly the entries the claim
describes. -/
theorem processDataCollection_eq_claim (callId : String) :
    (dc : List (String × String)) →
      processDataCollection callId dc = dc.filterMap (claimResponseRow callId)
  | [] => rfl
  | e :: es => by
    have ih := processDataCollection_eq_claim callId es
    unfold processDataCollection at ih ⊢
    rw [List.filterMap_cons, List.filterMap_cons, ih]
    have he : claimResponseRow callId e =
        (match questionMapping (jsToLower e.1) with
         | some question =>
           if e.2 ≠ "" then
             some { call_id := callId, question_number := question.1,
                    question_text := question.2, response_text := e.2,
                    response_sentiment := analyzeSentiment e.2 }
           else none
         | none => none) := by
      unfold claimResponseRow
      rw [questionMapping_eq_lookup]
    rw [← he]

/-- Claim C6: for a post-call transcription webhook whose conversation id
matches a known call, the data-collection map is the source of the stored
responses: exactly the entries whose lower-cased key is one of q1..q5 and
whose value is non-empty produce a row with the mapped question number,
the fixed question text, the value, and the sentiment of the value; the
writes are these rows followed by the completed-status update, so the
heuristic transcript classifier contributes nothing. -/
theorem claim_C6_data_collection (lookupCallId : String → Option String)
    (payload : PostCallPayload) (conversationId callId : String)
    (hcid : payload.conversation_id = some conversationId)
    (hfound : lookupCallId conversationId = some callId) :
    processDataCollection callId payload.data_collection =
      payload.data_collection.filterMap (claimResponseRow callId) ∧
    postCallWrites lookupCallId payload =
      (payload.data_collection.filterMap (claimResponseRow callId)).map DbWrite.insertResponse
        ++ [DbWrite.updateCall conversationId CallStatus.completed payload.call_duration_secs] := by
  refine ⟨processDataCollection_eq_claim callId payload.data_collection, ?_⟩
  unfold postCallWrites
  rw [hcid]
  dsimp only
  rw [hfound]
  dsimp only
  rw [processDataCollection_eq_claim]

/-- Witness for claim C6 on a concrete payload with a matching call. -/
theorem claim_C6_witness :
    c6Payload.conversation_id = some "conv_1" ∧
    c6Lookup "conv_1" = some "call_9" ∧
    (processDataCollection "call_9" c6Payload.data_collection =
       c6Payload.data_collection.filterMap (claimResponseRow "call_9") ∧
     postCallWrites c6Lookup c6Payload =
       (c6Payload.data_collection.filterMap (claimResponseRow "call_9")).map DbWrite.insertResponse
         ++ [DbWrite.updateCall "conv_1" CallStatus.completed c6Payload.call_duration_secs]) :=
  ⟨rfl, by decide, claim_C6_data_collection c6Lookup c6Payload "conv_1" "call_9" rfl (by decide)⟩

/-- Claim C7 evaluation: the post-call handler never performs a
transcript write for any payload, and on a concrete payload with a
non-empty transcript for a known call the writes are exactly the
data-collection response rows and the status update, the transcript being
dropped. -/
theorem claim_C7_transcript_not_stored :
    (∀ (lookupCallId : String → Option String) (payload : PostCallPayload),
       (postCallWrites lookupCallId payload).all (fun w => !w.isTranscriptWrite) = true) ∧
    c7Payload.transcript ≠ [] ∧
    postCallWrites c7Lookup c7Payload =
      [DbWrite.insertResponse
        { call_id := "call_7", question_number := 1,
          question_text := "How long have you been using Great Southern Fuels?",
          response_text := "About five years", response_sentiment := Sentiment.neutral },
       DbWrite.updateCall "conv_123" CallStatus.completed (some 120)] := by
  refine ⟨?_, by decide, by decide⟩
  intro lookupCallId payload
  unfold postCallWrites
  rcases payload.conversation_id with _ | conversationId
  · rfl
  · dsimp only
    rcases lookupCallId conversationId with _ | callId
    · rfl
    · dsimp only
      rw [List.all_append]
      have h1 : ((processDataCollection callId payload.data_collection).map
          DbWrite.insertResponse).all (fun w => !w.isTranscriptWrite) = true := by
        rw [List.all_eq_true]
        intro w hw
        rw [List.mem_map] at hw
        obtain ⟨r, hr, rfl⟩ := hw
        rfl
      rw [h1]
      rfl

/-- Claim C8 counterexample: the declared call-status domain (TypeScript
union and SQL CHECK constraint) has five pairwise-distinct values, not
four. -/
theorem claim_C8_counterexample :
    callStatusDomain.length = 5 ∧ callStatusDomain.Nodup ∧ callStatusDomain.length ≠ 4 := by
  decide

/-- Every write of the per-customer batch body stores the queued
status. -/
theorem processCustomer_writes_status (env : BatchEnv) (cid : String) :
    ((processCustomer env cid).2).all
      (fun w => (writtenStatusOf w).all allowedWrittenStatus) = true := by
  unfold processCustomer
  rcases env.getCustomerById cid with _ | customer
  · rfl
  · dsimp only
    rcases env.initiateCall customer.phone_number customer.first_name with e | convId
    · rfl
    · dsimp only
      rcases env.createCall
          { customer_first_name := customer.first_name,
            customer_phone := customer.phone_number,
            call_sid := convId,
            customer_id := some cid,
            campaign_id := customer.campaign_id,
            call_status := .queued } with e | callId <;> rfl

/-- Claim C8 (amended): the declared status domain has five values;
across all modelled operations the code only ever writes three of them:
call creation writes queued and every status update writes in-progress or
completed. -/
theorem claim_C8_status_writes (eventType : String) (env : BatchEnv) (ids : List String)
    (mc : Nat) (lookupCallId : String → Option String) (payload : PostCallPayload)
    (firstName phoneNumber conversationId customerId : String) (campaignId : Option String) :
    (testCallWrite firstName phoneNumber conversationId).call_status = CallStatus.queued ∧
    (startCallWrite firstName phoneNumber conversationId customerId campaignId).call_status =
      CallStatus.queued ∧
    (processConversationEventStatusUpdates eventType).all allowedWrittenStatus = true ∧
    (webhookStatusUpdates eventType).all allowedWrittenStatus = true ∧
    (postCallWrites lookupCallId payload).all
      (fun w => (writtenStatusOf w).all allowedWrittenStatus) = true ∧
    (batchWrites env ids mc).all
      (fun w => (writtenStatusOf w).all allowedWrittenStatus) = true ∧
    callStatusDomain.length = 5 ∧
    ([CallStatus.queued, CallStatus.inProgress, CallStatus.completed].all
      (fun s => s ∈ callStatusDomain)) = true := by
  refine ⟨rfl, rfl, ?_, ?_, ?_, ?_, rfl, by decide⟩
  · unfold processConversationEventStatusUpdates
    split
    · rfl
    · split <;> rfl
  · unfold webhookStatusUpdates
    rw [List.all_append]
    split <;> split <;> rfl
  · unfold postCallWrites
    rcases payload.conversation_id with _ | conversationId2
    · rfl
    · dsimp only
      rcases lookupCallId conversationId2 with _ | callId
      · rfl
      · dsimp only
        rw [List.all_append]
        have h1 : ((processDataCollection callId payload.data_collection).map
            DbWrite.insertResponse).all
              (fun w => (writtenStatusOf w).all allowedWrittenStatus) = true := by
          rw [List.all_eq_true]
          intro w hw
          rw [List.mem_map] at hw
          obtain ⟨r, hr, rfl⟩ := hw
          rfl
        rw [h1]
        rfl
  · rw [List.all_eq_true]
    intro w hw
    unfold batchWrites at hw
    rw [List.mem_flatten] at hw
    obtain ⟨l, hl, hwl⟩ := hw
    rw [List.mem_map] at hl
    obtain ⟨batch, hb, rfl⟩ := hl
    rw [List.mem_flatten] at hwl
    obtain ⟨l2, hl2, hwl2⟩ := hwl
    rw [List.mem_map] at hl2
    obtain ⟨cid, hcid, rfl⟩ := hl2
    have hall := processCustomer_writes_status env cid
    rw [List.all_eq_true] at hall
    exact hall w hwl2

/-! ### CSV upload lemmas -/

/-- Appending to a non-empty string stays non-empty. -/
theorem string_append_ne_empty (a b : String) (h : a ≠ "") : a ++ b ≠ "" := by
  cases a with | mk la =>
  cases b with | mk lb =>
  intro hc
  apply h
  have hdata : la ++ lb = [] := congrArg String.data hc
  have hla : la = [] := (List.append_eq_nil.mp hdata).1
  rw [hla]

/-- Joining a list whose first element is non-empty is non-empty. -/
theorem jsJoin_ne_empty (sep m : String) (rest : List String) (hm : m ≠ "") :
    jsJoin sep (m :: rest) ≠ "" := by
  cases rest with
  | nil => simpa [jsJoin] using hm
  | cons y t =>
    rw [jsJoin]
    exact string_append_ne_empty _ _ (string_append_ne_empty _ _ hm)

/-- Reading a key outside the header list of a parsed row yields
undefined. -/
theorem objGet_zip_none {keys vals : List String} {key : String}
    (h : key ∉ keys) : objGet (keys.zip vals) key = none := by
  unfold objGet
  have hfilter : (keys.zip vals).filter (fun kv => kv.1 == key) = [] := by
    rw [List.filter_eq_nil_iff]
    rintro ⟨x, y⟩ hkv heq
    have hx : x ∈ keys := (List.of_mem_zip hkv).1
    rw [beq_iff_eq] at heq
    exact h (heq ▸ hx)
  rw [hfilter]
  rfl

/-- Membership in a conditionally-empty list. -/
theorem mem_ite_list {α : Type} {c : Prop} [Decidable c] {a : α} {l : List α} :
    (a ∈ (if c then l else [])) ↔ c ∧ a ∈ l := by
  split <;> simp_all

/-- The first-name error is recorded exactly when the row is not truthy
under both name spellings. -/
theorem firstName_error_mem (row : List (String × String)) :
    ("First name is required" ∈ customerErrors row) ↔
      ¬(optTruthy (objGet row "first_name") = true ∧
        optTruthy (objGet row "firstname") = true) := by
  unfold customerErrors
  by_cases ha : optTruthy (objGet row "first_name") <;>
    by_cases hb : optTruthy (objGet row "firstname") <;>
      simp [ha, hb, List.mem_append, mem_ite_list]

/-- The phone error is recorded exactly when the row is not truthy under
both phone spellings. -/
theorem phone_error_mem (row : List (String × String)) :
    ("Phone number is required" ∈ customerErrors row) ↔
      ¬(optTruthy (objGet row "phone") = true ∧
        optTruthy (objGet row "phone_number") = true) := by
  unfold customerErrors
  by_cases hc : optTruthy (objGet row "phone") <;>
    by_cases hd : optTruthy (objGet row "phone_number") <;>
      simp [hc, hd, List.mem_append, mem_ite_list]

/-- Every recorded validation message is a non-empty string. -/
theorem customerErrors_all_ne_empty (row : List (String × String)) :
    ∀ m ∈ customerErrors row, m ≠ "" := by
  intro m hm
  unfold customerErrors at hm
  simp only [List.mem_append, mem_ite_list, List.mem_singleton] at hm
  rcases hm with ((⟨_, rfl⟩ | ⟨_, rfl⟩) | ⟨_, rfl⟩) <;> decide

/-- A row with at least one validation message gets a truthy error
field. -/
theorem validateCustomer_error_truthy (row : List (String × String))
    (h : customerErrors row ≠ []) :
    optTruthy (validateCustomer row).error = true := by
  unfold validateCustomer
  rcases he : customerErrors row with _ | ⟨m, rest⟩
  · exact absurd he h
  · have hm : m ≠ "" := customerErrors_all_ne_empty row m
      (by rw [he]; exact List.mem_cons_self m rest)
    dsimp only
    rw [if_pos (by simp : (m :: rest).length > 0)]
    simpa [optTruthy] using jsJoin_ne_empty ", " m rest hm

/-- A row failing the two-spelling first-name check records at least one
message. -/
theorem customerErrors_ne_nil_of_missing_name (row : List (String × String))
    (h : optTruthy (objGet row "first_name") = false ∨
         optTruthy (objGet row "firstname") = false) :
    customerErrors row ≠ [] := by
  unfold customerErrors
  rw [if_pos]
  · simp
  · rcases h with h | h <;> simp [h]

/-- Claim C9: validation marks a row with "First name is required"
unless the row has truthy values under both the key first_name and the key
firstname, and with "Phone number is required" unless truthy under both
phone and phone_number; hence for a CSV whose header does not contain both
spellings of each, every parsed row carries a truthy error and the upload
answers with a 400 response. -/
theorem claim_C9_csv_both_spellings (row : List (String × String)) (csvContent : String)
    (hname : ¬("first_name" ∈ csvHeaders csvContent ∧ "firstname" ∈ csvHeaders csvContent))
    (_hphone : ¬("phone" ∈ csvHeaders csvContent ∧ "phone_number" ∈ csvHeaders csvContent)) :
    (("First name is required" ∈ customerErrors row) ↔
       ¬(optTruthy (objGet row "first_name") = true ∧
         optTruthy (objGet row "firstname") = true)) ∧
    (("Phone number is required" ∈ customerErrors row) ↔
       ¬(optTruthy (objGet row "phone") = true ∧
         optTruthy (objGet row "phone_number") = true)) ∧
    (validateCustomers (parseCSV csvContent)).all (fun c => optTruthy c.error) = true ∧
    (uploadCustomersOutcome csvContent).isBadRequest = true := by
  have hrow_all : ∀ r ∈ parseCSV csvContent, optTruthy (validateCustomer r).error = true := by
    intro r hr
    unfold parseCSV at hr
    by_cases hl : (csvLines csvContent).length < 2
    · rw [if_pos hl] at hr
      exact absurd hr (List.not_mem_nil r)
    · rw [if_neg hl] at hr
      dsimp only at hr
      rw [List.mem_filterMap] at hr
      obtain ⟨line, _hline, hline2⟩ := hr
      by_cases hc : (parseCSVLine line).length ≠ (csvHeaders csvContent).length
      · rw [if_pos hc] at hline2
        exact absurd hline2 (by simp)
      · rw [if_neg hc] at hline2
        have hr2 : r = (csvHeaders csvContent).zip ((parseCSVLine line).map jsTrim) :=
          (Option.some.injEq _ _).mp hline2.symm
      
        apply validateCustomer_error_truthy
        apply customerErrors_ne_nil_of_missing_name
        rcases Decidable.not_and_iff_or_not.mp hname with hmiss | hmiss
        · left
          rw [hr2, objGet_zip_none hmiss]
          rfl
        · right
          rw [hr2, objGet_zip_none hmiss]
          rfl
  refine ⟨firstName_error_mem row, phone_error_mem row, ?_, ?_⟩
  · rw [List.all_eq_true]
    intro c hc
    unfold validateCustomers at hc
    rw [List.mem_map] at hc
    obtain ⟨r, hr, rfl⟩ := hc
    exact hrow_all r hr
  · unfold uploadCustomersOutcome
    by_cases hz : (parseCSV csvContent).length = 0
    · rw [if_pos hz]
      rfl
    · rw [if_neg hz]
      dsimp only
      have hfilter : (validateCustomers (parseCSV csvContent)).filter
          (fun c => !optTruthy c.error) = [] := by
        rw [List.filter_eq_nil_iff]
        intro c hc
        unfold validateCustomers at hc
        rw [List.mem_map] at hc
        obtain ⟨r, hr, rfl⟩ := hc
        rw [hrow_all r hr]
        decide
      rw [hfilter]
      rfl

/-- Witness for claim C9 on a CSV with headers first_name and phone
only. -/
theorem claim_C9_witness :
    (¬("first_name" ∈ csvHeaders "first_name,phone\nJohn,61412345678" ∧
       "firstname" ∈ csvHeaders "first_name,phone\nJohn,61412345678")) ∧
    (¬("phone" ∈ csvHeaders "first_name,phone\nJohn,61412345678" ∧
       "phone_number" ∈ csvHeaders "first_name,phone\nJohn,61412345678")) ∧
    ((("First name is required" ∈ customerErrors [("first_name", "John"), ("phone", "61412345678")]) ↔
        ¬(optTruthy (objGet [("first_name", "John"), ("phone", "61412345678")] "first_name") = true ∧
          optTruthy (objGet [("first_name", "John"), ("phone", "61412345678")] "firstname") = true)) ∧
     (("Phone number is required" ∈ customerErrors [("first_name", "John"), ("phone", "61412345678")]) ↔
        ¬(optTruthy (objGet [("first_name", "John"), ("phone", "61412345678")] "phone") = true ∧
          optTruthy (objGet [("first_name", "John"), ("phone", "61412345678")] "phone_number") = true)) ∧
     (validateCustomers (parseCSV "first_name,phone\nJohn,61412345678")).all
       (fun c => optTruthy c.error) = true ∧
     (uploadCustomersOutcome "first_name,phone\nJohn,61412345678").isBadRequest = true) :=
  ⟨by decide, by decide,
   claim_C9_csv_both_spellings [("first_name", "John"), ("phone", "61412345678")]
     "first_name,phone\nJohn,61412345678" (by decide) (by decide)⟩

end SurveyBot
